import Mathlib

/-!
Shallow embedding of the cart context and the provider-application service of
the Slash storefront, together with theorems about the properties its
specification states.  Monetary amounts are embedded as integers; remote
database calls are embedded by passing the affected table state explicitly and
by oracle flags recording whether each call succeeds, returns an error object,
or throws.
-/

namespace Slash

/-- One cart line: the CartItem shape used by the cart context
(experienceId, quantity, optional ISO date string). -/
structure CartItem where
  experienceId : String
  quantity : Int
  date : Option String
deriving DecidableEq, Repr

/-- Modelled from the spec: the Experience record type is imported from a
library module not present in the snapshot; section 3 of the spec lists its
fields (id, title, price, location, duration, participants, date, imageUrl,
trending flag).  Only the price takes part in any claim. -/
structure Experience where
  id : String
  title : String
  price : Int
  location : String
  duration : String
  participants : String
  date : String
  imageUrl : String
  trending : Bool
deriving DecidableEq, Repr

/-- The in-memory experience cache, a record keyed by experience id,
embedded as an association list (keys are never overwritten: the code only
inserts ids that are absent). -/
abbrev ExperienceCache := List (String × Experience)

/-- Lookup in the experience cache. -/
def lookupExp (cache : ExperienceCache) (id : String) : Option Experience :=
  (cache.find? (fun p => p.1 == id)).map (fun p => p.2)

/-- The contribution of one id to a price computation:
the source expression is (experience?.price || 0), which for an integer price
is the cached price when the id is cached and 0 otherwise (a cached price of
0 also yields 0, agreeing with the JavaScript falsy-or). -/
def priceOf (cache : ExperienceCache) (id : String) : Int :=
  match lookupExp cache id with
  | some e => e.price
  | none => 0

/-- The derived itemCount:
items.reduce((total, item) => total + item.quantity, 0). -/
def itemCount (items : List CartItem) : Int :=
  items.foldl (fun total item => total + item.quantity) 0

/-- The total-price reduction used both by fetchExperiencesForCart (lines
88-93) and by checkout (lines 301-304):
items.reduce((sum, item) => sum + (experience?.price || 0) * item.quantity, 0)
over a given cache. -/
def cartTotal (items : List CartItem) (cache : ExperienceCache) : Int :=
  items.foldl (fun sum item => sum + priceOf cache item.experienceId * item.quantity) 0

/-- The cache-population loop of fetchExperiencesForCart: walk the cart lines
and fetch every experience not already cached, adding the ones the fetch
returns.  The remote getExperienceById is an oracle argument. -/
def updateCache (fetch : String → Option Experience) (cache : ExperienceCache)
    (items : List CartItem) : ExperienceCache :=
  items.foldl
    (fun c item =>
      if (lookupExp c item.experienceId).isSome then c
      else
        match fetch item.experienceId with
        | some e => (item.experienceId, e) :: c
        | none => c)
    cache

/-- The whole fetchExperiencesForCart effect: the new cache and the total price
it stores into the totalPrice state. -/
def fetchExperiencesForCart (fetch : String → Option Experience)
    (cache : ExperienceCache) (items : List CartItem) : ExperienceCache × Int :=
  let newCache := updateCache fetch cache items
  (newCache, cartTotal items newCache)

/-- The guest branch of addToCart (lines 102-119): read the localStorage cart,
increment the first line with the given id if present, otherwise push a new
line with quantity 1 carrying the supplied date. -/
def incFirst (items : List CartItem) (id : String) : List CartItem :=
  match items with
  | [] => []
  | item :: rest =>
    if item.experienceId == id then { item with quantity := item.quantity + 1 } :: rest
    else item :: incFirst rest id

/-- Guest addToCart on the stored cart list. -/
def addToCartGuest (items : List CartItem) (id : String) (date : Option String) :
    List CartItem :=
  if items.any (fun item => item.experienceId == id) then incFirst items id
  else items ++ [{ experienceId := id, quantity := 1, date := date }]

/- Helper: a left fold that adds a projection of each element equals the
starting value plus the sum of the projections. -/
lemma foldl_add_map_sum (f : CartItem → Int) (items : List CartItem) (a : Int) :
    items.foldl (fun s item => s + f item) a = a + (items.map f).sum := by
  induction items generalizing a with
  | nil => simp
  | cons x xs ih => simp [List.foldl_cons, ih (a + f x)]; ring

/-- C9: the derived itemCount equals the sum of the quantities of all cart
lines, not the number of distinct lines. -/
theorem itemCount_eq_sum_quantities (items : List CartItem) :
    itemCount items = (items.map (fun item => item.quantity)).sum := by
  simpa using foldl_add_map_sum (fun item => item.quantity) items 0

/-- C4: the derived totalPrice stored by fetchExperiencesForCart equals the
sum over all cart lines of (price of the cached experience record times line
quantity), where a line whose id is absent from the (updated) cache
contributes 0. -/
theorem totalPrice_eq_sum (fetch : String → Option Experience)
    (cache : ExperienceCache) (items : List CartItem) :
    (fetchExperiencesForCart fetch cache items).2 =
      (items.map (fun item =>
        priceOf (fetchExperiencesForCart fetch cache items).1 item.experienceId
          * item.quantity)).sum := by
  unfold fetchExperiencesForCart cartTotal
  simpa using
    foldl_add_map_sum
      (fun item => priceOf (updateCache fetch cache items) item.experienceId * item.quantity)
      items 0

/-- A row of the remote cart_items table (primary key id, the owning user,
the experience, quantity and optional date; timestamps are irrelevant to the
claims and omitted). -/
structure CartRow where
  id : Nat
  userId : String
  experienceId : String
  quantity : Int
  date : Option String
deriving DecidableEq, Repr

/-- The row filter used by the authenticated addToCart fetch:
.eq(user_id).eq(experience_id). -/
def matchesUserExp (uid expId : String) (r : CartRow) : Bool :=
  r.userId == uid && r.experienceId == expId

/-- The authenticated branch of addToCart (lines 126-191) acting on the remote
cart_items rows.  The .single() fetch yields a non-null existingItem exactly
when one row matches (zero or several matching rows produce the PGRST116 error
the code tolerates, with null data, so the insert branch runs).  On a hit the
update targets rows whose primary key equals the fetched row's id and sets
quantity + 1 and date := newDate.toISOString() || existing.date.  The
expExists flag is the experiences existence check; writeOk covers the
infrastructure errors (cart fetch error other than PGRST116, update error,
insert error), each of which makes the code throw, embedded as none.
This definition is the update payload applied to each row on a hit. -/
def updRow (date : Option String) (existing : CartRow) (r : CartRow) : CartRow :=
  if r.id == existing.id then
    { r with
        quantity := r.quantity + 1,
        date := match date with
                | some d => some d
                | none => existing.date }
  else r

/-- Authenticated addToCart over the remote rows; see updRow for the update
payload applied on a .single() hit. -/
def addToCartAuth (expExists : Bool) (writeOk : Bool) (rows : List CartRow)
    (uid expId : String) (date : Option String) (newId : Nat) :
    Option (List CartRow) :=
  if !expExists then none
  else if !writeOk then none
  else
    match rows.filter (matchesUserExp uid expId) with
    | [existing] => some (rows.map (updRow date existing))
    | _ =>
      some (rows ++
        [{ id := newId, userId := uid, experienceId := expId,
           quantity := 1, date := date }])

/- Helper: when no line of the front part matches, incFirst on the list with a
matching line appended increments exactly that appended line. -/
lemma incFirst_append_single (cart : List CartItem) (id : String) (x : CartItem)
    (h : ∀ i ∈ cart, (i.experienceId == id) = false)
    (hx : (x.experienceId == id) = true) :
    incFirst (cart ++ [x]) id = cart ++ [{ x with quantity := x.quantity + 1 }] := by
  induction cart with
  | nil => simp [incFirst, hx]
  | cons c cs ih =>
    have hc := h c (by simp)
    simp only [List.cons_append, incFirst, hc, Bool.false_eq_true, if_false,
      List.cons.injEq, true_and]
    exact ih (fun i hi => h i (by simp [hi]))

/- Helper: incFirst preserves the length of the list. -/
lemma incFirst_length (items : List CartItem) (id : String) :
    (incFirst items id).length = items.length := by
  induction items with
  | nil => rfl
  | cons x xs ih =>
    by_cases hx : (x.experienceId == id) = true
    · simp [incFirst, hx]
    · simp [incFirst, hx, ih]

/- Helper: when exactly one line matches the id, incFirst increments that
line's quantity and changes nothing else visible through the filter. -/
lemma incFirst_filter (items : List CartItem) (id : String) (it : CartItem)
    (h : items.filter (fun i => i.experienceId == id) = [it]) :
    (incFirst items id).filter (fun i => i.experienceId == id) =
      [{ it with quantity := it.quantity + 1 }] := by
  induction items with
  | nil => simp at h
  | cons x xs ih =>
    by_cases hx : (x.experienceId == id) = true
    · rw [List.filter_cons_of_pos (p := fun (i : CartItem) => i.experienceId == id) hx] at h
      obtain ⟨rfl, hxs⟩ := List.cons_eq_cons.mp h
      have : ({ x with quantity := x.quantity + 1 } : CartItem).experienceId = x.experienceId := rfl
      simp [incFirst, hx, List.filter_cons, this, hxs]
    · rw [List.filter_cons_of_neg (p := fun (i : CartItem) => i.experienceId == id) (by simpa using hx)] at h
      simp [incFirst, hx, List.filter_cons, ih h]

/- Helper: a singleton filter result satisfies the predicate. -/
lemma filter_singleton_pred {α : Type} (p : α → Bool) (l : List α) (x : α)
    (h : l.filter p = [x]) : p x = true := by
  have hx : x ∈ l.filter p := by simp [h]
  exact (List.mem_filter.mp hx).2

/- Helper: mapping an update that only touches q-elements over a list whose
unique p-element and unique q-element are the same x rewrites the p-filter to
the updated x. -/
lemma filter_map_update {α : Type} (p q : α → Bool) (g : α → α) (x : α)
    (hg : ∀ r, q r = false → g r = r) (hgx : p (g x) = true) :
    ∀ rows : List α, rows.filter p = [x] → rows.filter q = [x] →
      (rows.map g).filter p = [g x] := by
  intro rows
  induction rows with
  | nil => intro hp _; simp at hp
  | cons r rs ih =>
    intro hp hq
    have hpx : p x = true := filter_singleton_pred p (r :: rs) x hp
    by_cases hpr : p r = true
    · rw [List.filter_cons_of_pos hpr] at hp
      obtain ⟨rfl, hprs⟩ := List.cons_eq_cons.mp hp
      have hqr : q r = true := by
        by_contra hqr
        rw [List.filter_cons_of_neg (by simpa using hqr)] at hq
        have : r ∈ rs.filter q := by simp [hq]
        have hrs : r ∈ rs := (List.mem_filter.mp this).1
        have : r ∈ rs.filter p := List.mem_filter.mpr ⟨hrs, hpr⟩
        simp [hprs] at this
      rw [List.filter_cons_of_pos hqr] at hq
      obtain ⟨-, hqrs⟩ := List.cons_eq_cons.mp hq
      have hnil : (rs.map g).filter p = [] := by
        rw [List.filter_eq_nil_iff]
        intro a ha
        obtain ⟨b, hb, rfl⟩ := List.mem_map.mp ha
        have hqb : q b = false := by
          by_contra hqb
          have : b ∈ rs.filter q := List.mem_filter.mpr ⟨hb, by simpa using hqb⟩
          simp [hqrs] at this
        rw [hg b hqb]
        have hpb : p b = false := by
          by_contra hpb
          have : b ∈ rs.filter p := List.mem_filter.mpr ⟨hb, by simpa using hpb⟩
          simp [hprs] at this
        simp [hpb]
      simp [List.map_cons, List.filter_cons, hgx, hnil]
    · rw [List.filter_cons_of_neg (by simpa using hpr)] at hp
      have hqr : q r = false := by
        by_contra hqr
        rw [List.filter_cons_of_pos (by simpa using hqr)] at hq
        obtain ⟨rfl, -⟩ := List.cons_eq_cons.mp hq
        exact hpr hpx
      rw [List.filter_cons_of_neg (by simpa using hqr)] at hq
      have hgr : g r = r := hg r hqr
      simp only [List.map_cons, hgr]
      rw [List.filter_cons_of_neg (by simpa using hpr)]
      exact ih hp hq

/- Helper: when no row matches the (user, experience) pair, the authenticated
addToCart inserts a fresh row with quantity 1. -/
lemma addToCartAuth_insert (rows : List CartRow) (uid expId : String)
    (date : Option String) (newId : Nat)
    (h : rows.filter (matchesUserExp uid expId) = []) :
    addToCartAuth true true rows uid expId date newId =
      some (rows ++
        [{ id := newId, userId := uid, experienceId := expId,
           quantity := 1, date := date }]) := by
  simp [addToCartAuth, h]

/- Helper: when exactly one row matches, the authenticated addToCart maps the
update over the table. -/
lemma addToCartAuth_hit (rows : List CartRow) (uid expId : String)
    (date : Option String) (newId : Nat) (existing : CartRow)
    (h : rows.filter (matchesUserExp uid expId) = [existing]) :
    addToCartAuth true true rows uid expId date newId =
      some (rows.map (updRow date existing)) := by
  simp [addToCartAuth, h]

/- Helper: full description of the successful update path: the call succeeds,
exactly the matched row is changed (quantity + 1, date overwritten by a
supplied date and otherwise kept), and no row is added or removed. -/
lemma auth_update_spec (rows : List CartRow) (uid expId : String)
    (d : Option String) (n : Nat) (existing : CartRow)
    (h1 : rows.filter (matchesUserExp uid expId) = [existing])
    (h2 : rows.filter (fun r => r.id == existing.id) = [existing]) :
    addToCartAuth true true rows uid expId d n =
        some (rows.map (updRow d existing)) ∧
      (rows.map (updRow d existing)).filter (matchesUserExp uid expId) =
        [{ existing with
             quantity := existing.quantity + 1,
             date := match d with | some x => some x | none => existing.date }] ∧
      (rows.map (updRow d existing)).length = rows.length := by
  have hpx : matchesUserExp uid expId existing = true :=
    filter_singleton_pred _ rows existing h1
  have hupd : updRow d existing existing =
      { existing with
          quantity := existing.quantity + 1,
          date := match d with | some x => some x | none => existing.date } := by
    simp [updRow]
  have hgx : matchesUserExp uid expId (updRow d existing existing) = true := by
    rw [hupd]
    simpa [matchesUserExp] using hpx
  have hfilter :=
    filter_map_update (matchesUserExp uid expId) (fun r => r.id == existing.id)
      (updRow d existing) existing
      (fun r hr => by simp [updRow, hr]) hgx rows h1 h2
  exact ⟨addToCartAuth_hit rows uid expId d n existing h1,
    by rw [hfilter, hupd], by simp⟩

/-- C3: adding the same experience id twice (from a cart not containing it)
yields exactly one line for that id with quantity 2, not two lines; and more
generally addToCart on an id already present increments that line's quantity
by 1 and adds no new line — in the guest (localStorage) branch and in the
authenticated (remote rows) branch.  The remote parts assume the fresh row id
is not already a primary key and that primary keys are unique, as the
database guarantees. -/
theorem addToCart_twice_single_line :
    (∀ (cart : List CartItem) (id : String) (d1 d2 : Option String),
      (∀ i ∈ cart, (i.experienceId == id) = false) →
      ((addToCartGuest (addToCartGuest cart id d1) id d2).filter
          (fun i => i.experienceId == id)).map (fun i => i.quantity) = [2] ∧
        (addToCartGuest (addToCartGuest cart id d1) id d2).length =
          cart.length + 1)
  ∧ (∀ (cart : List CartItem) (id : String) (d : Option String) (it : CartItem),
      cart.filter (fun i => i.experienceId == id) = [it] →
      ((addToCartGuest cart id d).filter
          (fun i => i.experienceId == id)).map (fun i => i.quantity) =
          [it.quantity + 1] ∧
        (addToCartGuest cart id d).length = cart.length)
  ∧ (∀ (rows : List CartRow) (uid id : String) (d1 d2 : Option String)
        (n1 n2 : Nat),
      rows.filter (matchesUserExp uid id) = [] →
      (∀ r ∈ rows, (r.id == n1) = false) →
      ∃ rows1 rows2,
        addToCartAuth true true rows uid id d1 n1 = some rows1 ∧
        addToCartAuth true true rows1 uid id d2 n2 = some rows2 ∧
        (rows2.filter (matchesUserExp uid id)).map (fun r => r.quantity) = [2] ∧
        rows2.length = rows.length + 1)
  ∧ (∀ (rows : List CartRow) (uid id : String) (d : Option String) (n : Nat)
        (existing : CartRow),
      rows.filter (matchesUserExp uid id) = [existing] →
      rows.filter (fun r => r.id == existing.id) = [existing] →
      ∃ rows2,
        addToCartAuth true true rows uid id d n = some rows2 ∧
        (rows2.filter (matchesUserExp uid id)).map (fun r => r.quantity) =
          [existing.quantity + 1] ∧
        rows2.length = rows.length) := by
  refine ⟨?_, ?_, ?_, ?_⟩
  · intro cart id d1 d2 h
    have hany : cart.any (fun i => i.experienceId == id) = false := by
      simp only [List.any_eq_false]
      intro i hi
      simp [h i hi]
    have h1 : addToCartGuest cart id d1 =
        cart ++ [{ experienceId := id, quantity := 1, date := d1 }] := by
      simp [addToCartGuest, hany]
    have hany2 : (cart ++
        [({ experienceId := id, quantity := 1, date := d1 } : CartItem)]).any
          (fun i => i.experienceId == id) = true := by
      simp [List.any_append]
    have h2 : addToCartGuest (addToCartGuest cart id d1) id d2 =
        cart ++ [{ experienceId := id, quantity := 1 + 1, date := d1 }] := by
      rw [h1]
      rw [addToCartGuest, if_pos hany2]
      exact incFirst_append_single cart id _ h (by simp)
    have hnil : cart.filter (fun i => i.experienceId == id) = [] := by
      rw [List.filter_eq_nil_iff]
      intro i hi
      simp [h i hi]
    rw [h2]
    constructor
    · simp [List.filter_append, hnil]
    · simp
  · intro cart id d it h
    have hit : (it.experienceId == id) = true :=
      filter_singleton_pred _ cart it h
    have hmem : it ∈ cart := by
      have : it ∈ cart.filter (fun i => i.experienceId == id) := by simp [h]
      exact (List.mem_filter.mp this).1
    have hany : cart.any (fun i => i.experienceId == id) = true :=
      List.any_eq_true.mpr ⟨it, hmem, hit⟩
    have hg : addToCartGuest cart id d = incFirst cart id := by
      rw [addToCartGuest, if_pos hany]
    rw [hg, incFirst_filter cart id it h, incFirst_length]
    simp
  · intro rows uid id d1 d2 n1 n2 h1 h2
    set newrow : CartRow :=
      { id := n1, userId := uid, experienceId := id, quantity := 1, date := d1 }
      with hnew
    have step1 := addToCartAuth_insert rows uid id d1 n1 h1
    have hpnew : matchesUserExp uid id newrow = true := by
      simp [matchesUserExp, hnew]
    have hfilter1 : (rows ++ [newrow]).filter (matchesUserExp uid id) =
        [newrow] := by
      simp [List.filter_append, h1, hpnew]
    have hqnil : rows.filter (fun r => r.id == newrow.id) = [] := by
      rw [List.filter_eq_nil_iff]
      intro r hr
      simp [hnew, h2 r hr]
    have hfilter1q : (rows ++ [newrow]).filter (fun r => r.id == newrow.id) =
        [newrow] := by
      simp [List.filter_append, hqnil]
    have spec := auth_update_spec (rows ++ [newrow]) uid id d2 n2 newrow
      hfilter1 hfilter1q
    refine ⟨rows ++ [newrow], (rows ++ [newrow]).map (updRow d2 newrow),
      step1, spec.1, ?_, ?_⟩
    · rw [spec.2.1]
      simp [hnew]
    · rw [spec.2.2]
      simp
  · intro rows uid id d n existing h1 h2
    have spec := auth_update_spec rows uid id d n existing h1 h2
    exact ⟨rows.map (updRow d existing), spec.1, by rw [spec.2.1]; simp, spec.2.2⟩

/-- C3 witness: both guest calls and both authenticated calls instantiated on
concrete carts. -/
theorem addToCart_twice_single_line_witness :
    (((addToCartGuest (addToCartGuest [] "e1" none) "e1" none).filter
        (fun i => i.experienceId == "e1")).map (fun i => i.quantity) = [2])
  ∧ (((addToCartGuest [⟨"e1", 1, none⟩] "e1" none).filter
        (fun i => i.experienceId == "e1")).map (fun i => i.quantity) = [2])
  ∧ (∃ rows1 rows2,
      addToCartAuth true true [] "u" "e1" none 5 = some rows1 ∧
      addToCartAuth true true rows1 "u" "e1" none 6 = some rows2 ∧
      (rows2.filter (matchesUserExp "u" "e1")).map (fun r => r.quantity) = [2] ∧
      rows2.length = 1)
  ∧ (∃ rows2,
      addToCartAuth true true [⟨5, "u", "e1", 1, none⟩] "u" "e1" none 6 =
        some rows2 ∧
      (rows2.filter (matchesUserExp "u" "e1")).map (fun r => r.quantity) = [2] ∧
      rows2.length = 1) := by
  refine ⟨?_, ?_, ?_, ?_⟩
  · exact (addToCart_twice_single_line.1 [] "e1" none none (by simp)).1
  · simpa using
      (addToCart_twice_single_line.2.1 [⟨"e1", 1, none⟩] "e1" none
        ⟨"e1", 1, none⟩ (by simp)).1
  · simpa using
      addToCart_twice_single_line.2.2.1 [] "u" "e1" none none 5 6 (by simp)
        (by simp)
  · simpa using
      addToCart_twice_single_line.2.2.2 [⟨5, "u", "e1", 1, none⟩] "u" "e1"
        none 6 ⟨5, "u", "e1", 1, none⟩ (by simp [matchesUserExp]) (by simp)

/-- C10: in the guest branch, addToCart on an id already in the cart leaves
the stored date of that line unchanged even when a new date is supplied; in
the authenticated branch the existing line's date is overwritten by a newly
supplied date and kept when none is supplied. -/
theorem addToCart_date_handling :
    (∀ (cart : List CartItem) (id : String) (d : Option String) (it : CartItem),
      cart.filter (fun i => i.experienceId == id) = [it] →
      ((addToCartGuest cart id d).filter
          (fun i => i.experienceId == id)).map (fun i => i.date) = [it.date])
  ∧ (∀ (rows : List CartRow) (uid id : String) (d : Option String) (n : Nat)
        (existing : CartRow),
      rows.filter (matchesUserExp uid id) = [existing] →
      rows.filter (fun r => r.id == existing.id) = [existing] →
      ∃ rows2,
        addToCartAuth true true rows uid id d n = some rows2 ∧
        (rows2.filter (matchesUserExp uid id)).map (fun r => r.date) =
          [match d with | some s => some s | none => existing.date]) := by
  constructor
  · intro cart id d it h
    have hit : (it.experienceId == id) = true :=
      filter_singleton_pred _ cart it h
    have hmem : it ∈ cart := by
      have : it ∈ cart.filter (fun i => i.experienceId == id) := by simp [h]
      exact (List.mem_filter.mp this).1
    have hany : cart.any (fun i => i.experienceId == id) = true :=
      List.any_eq_true.mpr ⟨it, hmem, hit⟩
    have hg : addToCartGuest cart id d = incFirst cart id := by
      rw [addToCartGuest, if_pos hany]
    rw [hg, incFirst_filter cart id it h]
    simp
  · intro rows uid id d n existing h1 h2
    have spec := auth_update_spec rows uid id d n existing h1 h2
    exact ⟨rows.map (updRow d existing), spec.1, by rw [spec.2.1]; simp⟩

/-- C10 witness: a guest add with a new date keeps the old date; an
authenticated add overwrites the date with the new one. -/
theorem addToCart_date_handling_witness :
    (((addToCartGuest [⟨"e1", 1, some "2024-01-01"⟩] "e1" (some "2024-06-01")).filter
        (fun i => i.experienceId == "e1")).map (fun i => i.date) =
        [some "2024-01-01"])
  ∧ (∃ rows2,
      addToCartAuth true true [⟨5, "u", "e1", 1, some "2024-01-01"⟩] "u" "e1"
          (some "2024-06-01") 6 = some rows2 ∧
      (rows2.filter (matchesUserExp "u" "e1")).map (fun r => r.date) =
        [some "2024-06-01"]) := by
  constructor
  · exact addToCart_date_handling.1 [⟨"e1", 1, some "2024-01-01"⟩] "e1"
      (some "2024-06-01") ⟨"e1", 1, some "2024-01-01"⟩ (by simp)
  · simpa using
      addToCart_date_handling.2 [⟨5, "u", "e1", 1, some "2024-01-01"⟩] "u" "e1"
        (some "2024-06-01") 6 ⟨5, "u", "e1", 1, some "2024-01-01"⟩
        (by simp [matchesUserExp]) (by simp)

/-- removeFromCart (lines 194-218): an authenticated user's matching remote
rows are deleted first; if that delete errors the code toasts a failure and
returns with the local items unchanged, otherwise (and always for guests) the
line is filtered out of local state and a success toast shown.  The dbOk flag
is the remote delete's outcome (irrelevant for guests). -/
def removeFromCart (user : Option String) (dbOk : Bool) (items : List CartItem)
    (id : String) : List CartItem × List String :=
  match user with
  | some _ =>
    if dbOk then
      (items.filter (fun i => i.experienceId != id), ["Item removed from cart"])
    else (items, ["Failed to remove item from cart"])
  | none =>
    (items.filter (fun i => i.experienceId != id), ["Item removed from cart"])

/-- updateQuantity (lines 220-257): a non-positive quantity delegates to
removeFromCart; otherwise the remote row is updated (authenticated; on error
the local state is left unchanged and a toast shown) and the local lines with
the id get the new quantity. -/
def updateQuantity (user : Option String) (dbOk : Bool) (items : List CartItem)
    (id : String) (q : Int) : List CartItem × List String :=
  if q ≤ 0 then removeFromCart user dbOk items id
  else
    match user with
    | some _ =>
      if dbOk then
        (items.map (fun i =>
          if i.experienceId == id then { i with quantity := q } else i), [])
      else (items, ["Failed to update quantity"])
    | none =>
      (items.map (fun i =>
        if i.experienceId == id then { i with quantity := q } else i), [])

/-- clearCart (lines 259-282): an authenticated user's rows are deleted; if
the delete errors the code toasts and returns with items unchanged, else
local items become empty with a success toast.  clearCart catches every
exception itself, so it never throws into its caller. -/
def clearCart (user : Option String) (dbOk : Bool) (items : List CartItem) :
    List CartItem × List String :=
  match user with
  | some _ =>
    if dbOk then ([], ["Cart cleared"]) else (items, ["Failed to clear cart"])
  | none => ([], ["Cart cleared"])

/-- Outcome of one remote insert: success, an error object returned, or a
thrown exception. -/
inductive CallResult
  | ok
  | err
  | exn
deriving DecidableEq, Repr

/-- The bookings row inserted by checkout (lines 307-317). -/
structure Booking where
  id : Nat
  userId : String
  totalAmount : Int
  status : String
  paymentMethod : String
  notes : String
deriving DecidableEq, Repr

/-- One booking_items row (lines 325-333). -/
structure BookingItem where
  bookingId : Nat
  experienceId : String
  quantity : Int
  priceAtBooking : Int
deriving DecidableEq, Repr

/-- Oracle for checkout's remote calls: the two insert outcomes, the outcome
of clearCart's delete, and the id the database assigns to the new booking. -/
structure CheckoutEnv where
  bookingInsert : CallResult
  itemsInsert : CallResult
  clearDeleteOk : Bool
  newBookingId : Nat
deriving DecidableEq, Repr

/-- Observable outcome of a checkout call: the returned flag, the cart after
the call, the rows the call inserted, and the toasts it raised. -/
structure CheckoutResult where
  returned : Bool
  items : List CartItem
  bookings : List Booking
  bookingItems : List BookingItem
  toasts : List String
deriving DecidableEq, Repr

/-- The booking_items payload built from the cart lines and the experience
cache (lines 325-333): one row per cart line with a price-at-booking
snapshot of (experience?.price || 0). -/
def mkBookingItems (items : List CartItem) (cache : ExperienceCache)
    (bid : Nat) : List BookingItem :=
  items.map (fun item =>
    { bookingId := bid, experienceId := item.experienceId,
      quantity := item.quantity,
      priceAtBooking := priceOf cache item.experienceId })

/-- checkout (lines 288-352).  Guards: no user or an empty cart return false
with a toast.  Then the total is reduced over the experience cache, the
booking row inserted (error or exception: return false, nothing inserted),
the booking_items rows inserted (error or exception: return false, the
booking row already exists), and finally clearCart runs — whose own failure
is swallowed inside clearCart, after which checkout returns true. -/
def checkout (user : Option String) (items : List CartItem)
    (cache : ExperienceCache) (env : CheckoutEnv) : CheckoutResult :=
  match user with
  | none =>
    { returned := false, items := items, bookings := [], bookingItems := [],
      toasts := ["Please log in to checkout"] }
  | some uid =>
    if items.length = 0 then
      { returned := false, items := items, bookings := [], bookingItems := [],
        toasts := ["Your cart is empty"] }
    else
      match env.bookingInsert with
      | CallResult.err =>
        { returned := false, items := items, bookings := [], bookingItems := [],
          toasts := [] }
      | CallResult.exn =>
        { returned := false, items := items, bookings := [], bookingItems := [],
          toasts := [] }
      | CallResult.ok =>
        let booking : Booking :=
          { id := env.newBookingId, userId := uid,
            totalAmount := cartTotal items cache, status := "confirmed",
            paymentMethod := "credit_card",
            notes := "Processed via web checkout" }
        match env.itemsInsert with
        | CallResult.err =>
          { returned := false, items := items, bookings := [booking],
            bookingItems := [], toasts := [] }
        | CallResult.exn =>
          { returned := false, items := items, bookings := [booking],
            bookingItems := [], toasts := [] }
        | CallResult.ok =>
          let cleared := clearCart (some uid) env.clearDeleteOk items
          { returned := true, items := cleared.1, bookings := [booking],
            bookingItems := mkBookingItems items cache env.newBookingId,
            toasts := cleared.2 }

/-- C5: checkout with an empty cart returns false, performs no booking or
booking-items inserts, and leaves the cart unchanged. -/
theorem checkout_empty_cart (user : Option String) (items : List CartItem)
    (cache : ExperienceCache) (env : CheckoutEnv)
    (h : items.length = 0) :
    (checkout user items cache env).returned = false ∧
      (checkout user items cache env).bookings = [] ∧
      (checkout user items cache env).bookingItems = [] ∧
      (checkout user items cache env).items = items := by
  cases user <;> simp [checkout, h]

/-- C5 witness: an empty cart for a logged-in user with all calls healthy. -/
theorem checkout_empty_cart_witness :
    (checkout (some "u") [] [] ⟨CallResult.ok, CallResult.ok, true, 1⟩).returned
        = false ∧
      (checkout (some "u") [] [] ⟨CallResult.ok, CallResult.ok, true, 1⟩).bookings
        = [] ∧
      (checkout (some "u") [] [] ⟨CallResult.ok, CallResult.ok, true, 1⟩).bookingItems
        = [] ∧
      (checkout (some "u") [] [] ⟨CallResult.ok, CallResult.ok, true, 1⟩).items
        = [] :=
  checkout_empty_cart (some "u") [] [] ⟨CallResult.ok, CallResult.ok, true, 1⟩ rfl

/- Helper: the booking-items payload prices multiply out to the cart total
reduction. -/
lemma mkBookingItems_sum (items : List CartItem) (cache : ExperienceCache)
    (bid : Nat) :
    ((mkBookingItems items cache bid).map
        (fun b => b.priceAtBooking * b.quantity)).sum = cartTotal items cache := by
  have h1 : (mkBookingItems items cache bid).map
      (fun b => b.priceAtBooking * b.quantity) =
      items.map (fun i => priceOf cache i.experienceId * i.quantity) := by
    simp [mkBookingItems, List.map_map, Function.comp]
  rw [h1]
  have h2 := foldl_add_map_sum
    (fun i => priceOf cache i.experienceId * i.quantity) items 0
  simpa [cartTotal] using h2.symm

/-- C2: when checkout reaches the insert phase and both inserts succeed, the
sum over the inserted booking_items rows of price_at_booking times quantity
equals the total_amount written on the inserted booking row, both computed
from the same experience cache snapshot. -/
theorem checkout_items_sum_eq_total (uid : String) (items : List CartItem)
    (cache : ExperienceCache) (env : CheckoutEnv)
    (hne : items.length ≠ 0) (hb : env.bookingInsert = CallResult.ok)
    (hi : env.itemsInsert = CallResult.ok) :
    ((checkout (some uid) items cache env).bookingItems.map
        (fun b => b.priceAtBooking * b.quantity)).sum = cartTotal items cache ∧
      (checkout (some uid) items cache env).bookings.map
        (fun b => b.totalAmount) = [cartTotal items cache] := by
  constructor
  · simp [checkout, hne, hb, hi, mkBookingItems_sum]
  · simp [checkout, hne, hb, hi]

/-- C2 witness: one line of quantity 2 at cached price 10 gives matching
total 20. -/
theorem checkout_items_sum_eq_total_witness :
    ((checkout (some "u") [⟨"e1", 2, none⟩]
          [("e1", ⟨"e1", "t", 10, "l", "d", "p", "dt", "img", false⟩)]
          ⟨CallResult.ok, CallResult.ok, true, 3⟩).bookingItems.map
        (fun b => b.priceAtBooking * b.quantity)).sum =
      cartTotal [⟨"e1", 2, none⟩]
        [("e1", ⟨"e1", "t", 10, "l", "d", "p", "dt", "img", false⟩)] ∧
    (checkout (some "u") [⟨"e1", 2, none⟩]
          [("e1", ⟨"e1", "t", 10, "l", "d", "p", "dt", "img", false⟩)]
          ⟨CallResult.ok, CallResult.ok, true, 3⟩).bookings.map
        (fun b => b.totalAmount) =
      [cartTotal [⟨"e1", 2, none⟩]
        [("e1", ⟨"e1", "t", 10, "l", "d", "p", "dt", "img", false⟩)]] :=
  checkout_items_sum_eq_total "u" [⟨"e1", 2, none⟩]
    [("e1", ⟨"e1", "t", 10, "l", "d", "p", "dt", "img", false⟩)]
    ⟨CallResult.ok, CallResult.ok, true, 3⟩ (by simp) rfl rfl

/-- C1 counterexample: both inserts succeed but clearCart's delete fails, so
checkout returns true while the cart is left non-empty — refuting the claim
that checkout returns true exactly when both inserts succeeded and the cart
was cleared. -/
theorem checkout_true_without_clear_cex :
    (checkout (some "u") [⟨"e1", 1, none⟩] []
        ⟨CallResult.ok, CallResult.ok, false, 1⟩).returned = true ∧
      (checkout (some "u") [⟨"e1", 1, none⟩] []
        ⟨CallResult.ok, CallResult.ok, false, 1⟩).items = [⟨"e1", 1, none⟩] :=
  ⟨rfl, rfl⟩

/-- C1 (amended): on every failure path — unauthenticated user, empty cart,
booking insert error or exception, booking-items insert error or exception —
checkout returns false and the cart is unchanged; it returns true exactly when
both inserts succeeded; on that success path the cart clear is attempted and
clears the cart when its own delete succeeds, while a failed delete leaves the
cart unchanged even though checkout still returns true. -/
theorem checkout_failure_success_paths (user : Option String)
    (items : List CartItem) (cache : ExperienceCache) (env : CheckoutEnv) :
    (user = none →
      (checkout user items cache env).returned = false ∧
        (checkout user items cache env).items = items) ∧
    (items.length = 0 →
      (checkout user items cache env).returned = false ∧
        (checkout user items cache env).items = items) ∧
    (env.bookingInsert ≠ CallResult.ok →
      (checkout user items cache env).returned = false ∧
        (checkout user items cache env).items = items) ∧
    (env.itemsInsert ≠ CallResult.ok →
      (checkout user items cache env).returned = false ∧
        (checkout user items cache env).items = items) ∧
    ((checkout user items cache env).returned = true ↔
      user ≠ none ∧ items.length ≠ 0 ∧ env.bookingInsert = CallResult.ok ∧
        env.itemsInsert = CallResult.ok) ∧
    ((checkout user items cache env).returned = true →
      env.clearDeleteOk = true → (checkout user items cache env).items = []) ∧
    ((checkout user items cache env).returned = true →
      env.clearDeleteOk = false →
        (checkout user items cache env).items = items) := by
  obtain ⟨bi, ii, cd, nb⟩ := env
  by_cases h : items.length = 0 <;>
    cases user <;> cases bi <;> cases ii <;> cases cd <;>
      simp_all [checkout, clearCart]

/-- C1 witness: a healthy run returns true with a cleared cart. -/
theorem checkout_failure_success_paths_witness :
    (checkout (some "u") [⟨"e1", 1, none⟩] []
        ⟨CallResult.ok, CallResult.ok, true, 1⟩).returned = true ∧
      (checkout (some "u") [⟨"e1", 1, none⟩] []
        ⟨CallResult.ok, CallResult.ok, true, 1⟩).items = [] := by
  have h := checkout_failure_success_paths (some "u") [⟨"e1", 1, none⟩] []
    ⟨CallResult.ok, CallResult.ok, true, 1⟩
  have hret : (checkout (some "u") [⟨"e1", 1, none⟩] []
      ⟨CallResult.ok, CallResult.ok, true, 1⟩).returned = true :=
    h.2.2.2.2.1.mpr ⟨by simp, by simp, rfl, rfl⟩
  exact ⟨hret, h.2.2.2.2.2.1 hret rfl⟩

/-- C8 counterexample: the unauthenticated guard is a failure path of checkout
that does raise a toast, refuting the claim that checkout never toasts on
failure. -/
theorem checkout_guard_toast_cex :
    (checkout none [⟨"e1", 1, none⟩] []
        ⟨CallResult.ok, CallResult.ok, true, 1⟩).returned = false ∧
      (checkout none [⟨"e1", 1, none⟩] []
        ⟨CallResult.ok, CallResult.ok, true, 1⟩).toasts =
        ["Please log in to checkout"] :=
  ⟨rfl, rfl⟩

/-- C8 (amended): checkout raises no toast and silently returns false on its
insert-failure and exception paths, but its two guard paths — unauthenticated
user and empty cart — do raise an error toast. -/
theorem checkout_toast_profile :
    (∀ (uid : String) (items : List CartItem) (cache : ExperienceCache)
        (env : CheckoutEnv),
      items.length ≠ 0 →
      (env.bookingInsert ≠ CallResult.ok ∨ env.itemsInsert ≠ CallResult.ok) →
      (checkout (some uid) items cache env).toasts = [] ∧
        (checkout (some uid) items cache env).returned = false)
  ∧ (∀ (items : List CartItem) (cache : ExperienceCache) (env : CheckoutEnv),
      (checkout none items cache env).toasts = ["Please log in to checkout"])
  ∧ (∀ (uid : String) (items : List CartItem) (cache : ExperienceCache)
        (env : CheckoutEnv),
      items.length = 0 →
      (checkout (some uid) items cache env).toasts = ["Your cart is empty"]) := by
  refine ⟨?_, ?_, ?_⟩
  · intro uid items cache env hne hfail
    obtain ⟨bi, ii, cd, nb⟩ := env
    rcases hfail with hb | hi
    · cases bi <;> simp_all [checkout]
    · cases bi <;> cases ii <;> simp_all [checkout]
  · intro items cache env
    simp [checkout]
  · intro uid items cache env h
    simp [checkout, h]

/-- C8 witness: a booking-insert error for a logged-in nonempty cart is
silent; the guard paths toast. -/
theorem checkout_toast_profile_witness :
    ((checkout (some "u") [⟨"e1", 1, none⟩] []
        ⟨CallResult.err, CallResult.ok, true, 1⟩).toasts = [] ∧
      (checkout (some "u") [⟨"e1", 1, none⟩] []
        ⟨CallResult.err, CallResult.ok, true, 1⟩).returned = false)
  ∧ (checkout none [] [] ⟨CallResult.ok, CallResult.ok, true, 1⟩).toasts =
      ["Please log in to checkout"]
  ∧ (checkout (some "u") [] [] ⟨CallResult.ok, CallResult.ok, true, 1⟩).toasts =
      ["Your cart is empty"] :=
  ⟨checkout_toast_profile.1 "u" [⟨"e1", 1, none⟩] []
      ⟨CallResult.err, CallResult.ok, true, 1⟩ (by simp) (Or.inl (by simp)),
    checkout_toast_profile.2.1 [] [] ⟨CallResult.ok, CallResult.ok, true, 1⟩,
    checkout_toast_profile.2.2 "u" [] [] ⟨CallResult.ok, CallResult.ok, true, 1⟩
      rfl⟩

/-- C6: for an id present in the cart, updateQuantity with n ≤ 0 removes every
line with that id rather than storing a non-positive quantity, and with n ≥ 1
sets that line's quantity to n (line count preserved, the line still present
with the new quantity).  The hypothesis covers the guest branch and the
authenticated branch whose remote call succeeds; a failed remote call leaves
the local cart untouched. -/
theorem updateQuantity_spec (user : Option String) (dbOk : Bool)
    (items : List CartItem) (id : String) (q : Int)
    (hok : user = none ∨ dbOk = true)
    (hpres : items.any (fun i => i.experienceId == id) = true) :
    (q ≤ 0 →
      ∀ i ∈ (updateQuantity user dbOk items id q).1,
        (i.experienceId == id) = false)
  ∧ (1 ≤ q →
      (∀ i ∈ (updateQuantity user dbOk items id q).1,
        (i.experienceId == id) = true → i.quantity = q)
      ∧ (updateQuantity user dbOk items id q).1.length = items.length
      ∧ (updateQuantity user dbOk items id q).1.any
          (fun i => i.experienceId == id && i.quantity == q) = true) := by
  have hdef0 : q ≤ 0 →
      (updateQuantity user dbOk items id q).1 =
        items.filter (fun i => i.experienceId != id) := by
    intro hq
    rcases hok with rfl | rfl
    · simp [updateQuantity, removeFromCart, hq]
    · cases user <;> simp [updateQuantity, removeFromCart, hq]
  have hdef1 : 1 ≤ q →
      (updateQuantity user dbOk items id q).1 =
        items.map (fun i =>
          if i.experienceId == id then { i with quantity := q } else i) := by
    intro hq
    have hq0 : ¬ q ≤ 0 := by omega
    rcases hok with rfl | rfl
    · simp [updateQuantity, hq0]
    · cases user <;> simp [updateQuantity, hq0]
  constructor
  · intro hq i hi
    rw [hdef0 hq] at hi
    simpa using (List.mem_filter.mp hi).2
  · intro hq
    refine ⟨?_, ?_, ?_⟩
    · intro i hi hmatch
      rw [hdef1 hq] at hi
      obtain ⟨b, hb, rfl⟩ := List.mem_map.mp hi
      by_cases hbid : (b.experienceId == id) = true
      · simp [hbid]
      · simp only [hbid, Bool.false_eq_true, if_false] at hmatch ⊢
    · rw [hdef1 hq]
      simp
    · rw [hdef1 hq]
      obtain ⟨b, hb, hbid⟩ := List.any_eq_true.mp hpres
      refine List.any_eq_true.mpr ⟨(fun i =>
        if i.experienceId == id then { i with quantity := q } else i) b,
        List.mem_map.mpr ⟨b, hb, rfl⟩, ?_⟩
      simp [hbid]

/-- C6 witness: setting quantity 0 removes the line; setting 5 keeps one line
with quantity 5. -/
theorem updateQuantity_spec_witness :
    (∀ i ∈ (updateQuantity (some "u") true [⟨"e1", 2, none⟩] "e1" 0).1,
      (i.experienceId == "e1") = false)
  ∧ ((∀ i ∈ (updateQuantity (some "u") true [⟨"e1", 2, none⟩] "e1" 5).1,
        (i.experienceId == "e1") = true → i.quantity = 5)
      ∧ (updateQuantity (some "u") true [⟨"e1", 2, none⟩] "e1" 5).1.length = 1
      ∧ (updateQuantity (some "u") true [⟨"e1", 2, none⟩] "e1" 5).1.any
          (fun i => i.experienceId == "e1" && i.quantity == 5) = true) := by
  constructor
  · exact (updateQuantity_spec (some "u") true [⟨"e1", 2, none⟩] "e1" 0
      (Or.inr rfl) (by simp)).1 (by omega)
  · simpa using (updateQuantity_spec (some "u") true [⟨"e1", 2, none⟩] "e1" 5
      (Or.inr rfl) (by simp)).2 (by omega)

/-- The nested experience-details payload a provider application may carry;
the price arrives as a string, which the source converts with parseFloat when
inserting (the numeric parse plays no role in any claim). -/
structure ExperienceDetails where
  name : String
  description : String
  image : String
  price : String
  location : String
  duration : String
  participants : String
  date : String
  category : String
deriving DecidableEq, Repr

/-- The form data submitted to submitProviderApplication (the Provider minus
its server-assigned fields). -/
structure ProviderForm where
  companyName : String
  email : String
  contactNo : String
  location : String
  experienceDetails : Option ExperienceDetails
deriving DecidableEq, Repr

/-- A providers row as inserted by submitProviderApplication (lines 8-21),
with the id the database assigns. -/
structure ProviderRow where
  id : Nat
  companyName : String
  email : String
  contactNo : String
  location : String
  status : String
  joinDate : String
  experiences : Int
  rating : Int
deriving DecidableEq, Repr

/-- An experiences row as inserted by submitProviderApplication (lines 27-41);
price is kept as the submitted string, standing for its parseFloat image. -/
structure ExperienceRow where
  providerId : Nat
  title : String
  description : String
  imageUrl : String
  price : String
  location : String
  duration : String
  participants : String
  date : String
  category : String
  status : String
deriving DecidableEq, Repr

/-- Oracle for the two inserts of submitProviderApplication and the id the
database assigns to the new provider. -/
structure SubmitEnv where
  providerInsertOk : Bool
  experienceInsertOk : Bool
  newProviderId : Nat
deriving DecidableEq, Repr

/-- Observable outcome of submitProviderApplication: the success flag of the
returned record, the rows each table gained, the number of failure toasts
raised, and the provider data returned on success. -/
structure SubmitResult where
  success : Bool
  providerRows : List ProviderRow
  experienceRows : List ExperienceRow
  toasts : Nat
  returnedProvider : Option ProviderRow
deriving DecidableEq, Repr

/-- The provider row payload (lines 10-19): status pending, join date now,
zero experiences and rating. -/
def mkProviderRow (f : ProviderForm) (pid : Nat) (joinDate : String) :
    ProviderRow :=
  { id := pid, companyName := f.companyName, email := f.email,
    contactNo := f.contactNo, location := f.location, status := "pending",
    joinDate := joinDate, experiences := 0, rating := 0 }

/-- The experience row payload (lines 29-41), referencing providerData.id. -/
def mkExperienceRow (pid : Nat) (d : ExperienceDetails) : ExperienceRow :=
  { providerId := pid, title := d.name, description := d.description,
    imageUrl := d.image, price := d.price, location := d.location,
    duration := d.duration, participants := d.participants, date := d.date,
    category := d.category, status := "pending" }

/-- submitProviderApplication (part_001 lines 5-52): insert the provider row
(an error throws into the single catch: one toast, success false, no row);
then, only when experienceDetails is present, insert an experience row
referencing the returned provider id (an error throws into the same catch:
one toast, success false, the provider row already inserted and not rolled
back); on full success return success true with the provider data and no
toast. -/
def submitProviderApplication (env : SubmitEnv) (joinDate : String)
    (formData : ProviderForm) : SubmitResult :=
  if env.providerInsertOk = false then
    { success := false, providerRows := [], experienceRows := [], toasts := 1,
      returnedProvider := none }
  else
    let providerData := mkProviderRow formData env.newProviderId joinDate
    match formData.experienceDetails with
    | some details =>
      if env.experienceInsertOk then
        { success := true, providerRows := [providerData],
          experienceRows := [mkExperienceRow providerData.id details],
          toasts := 0, returnedProvider := some providerData }
      else
        { success := false, providerRows := [providerData],
          experienceRows := [], toasts := 1, returnedProvider := none }
    | none =>
      { success := true, providerRows := [providerData],
        experienceRows := [], toasts := 0,
        returnedProvider := some providerData }

/-- C7: submitProviderApplication inserts the provider row first and an
experience row only when details are present; either insert failing yields a
single combined failure result with exactly one toast; a failed experience
insert does not roll back the provider row; full success returns the provider
data, and the inserted experience row references the new provider's id. -/
theorem submitProviderApplication_spec (env : SubmitEnv) (joinDate : String)
    (f : ProviderForm) :
    (env.providerInsertOk = false →
      (submitProviderApplication env joinDate f).success = false ∧
        (submitProviderApplication env joinDate f).toasts = 1 ∧
        (submitProviderApplication env joinDate f).providerRows = [] ∧
        (submitProviderApplication env joinDate f).experienceRows = [])
  ∧ (∀ d, env.providerInsertOk = true → f.experienceDetails = some d →
      env.experienceInsertOk = false →
      (submitProviderApplication env joinDate f).success = false ∧
        (submitProviderApplication env joinDate f).toasts = 1 ∧
        (submitProviderApplication env joinDate f).providerRows =
          [mkProviderRow f env.newProviderId joinDate] ∧
        (submitProviderApplication env joinDate f).experienceRows = [])
  ∧ (env.providerInsertOk = true → f.experienceDetails = none →
      (submitProviderApplication env joinDate f).success = true ∧
        (submitProviderApplication env joinDate f).toasts = 0 ∧
        (submitProviderApplication env joinDate f).providerRows =
          [mkProviderRow f env.newProviderId joinDate] ∧
        (submitProviderApplication env joinDate f).experienceRows = [] ∧
        (submitProviderApplication env joinDate f).returnedProvider =
          some (mkProviderRow f env.newProviderId joinDate))
  ∧ (∀ d, env.providerInsertOk = true → f.experienceDetails = some d →
      env.experienceInsertOk = true →
      (submitProviderApplication env joinDate f).success = true ∧
        (submitProviderApplication env joinDate f).toasts = 0 ∧
        (submitProviderApplication env joinDate f).providerRows =
          [mkProviderRow f env.newProviderId joinDate] ∧
        (submitProviderApplication env joinDate f).experienceRows =
          [mkExperienceRow env.newProviderId d] ∧
        (∀ e ∈ (submitProviderApplication env joinDate f).experienceRows,
          e.providerId = env.newProviderId) ∧
        (submitProviderApplication env joinDate f).returnedProvider =
          some (mkProviderRow f env.newProviderId joinDate)) := by
  refine ⟨?_, ?_, ?_, ?_⟩
  · intro h
    simp [submitProviderApplication, h]
  · intro d hp hd he
    simp [submitProviderApplication, hp, hd, he]
  · intro hp hd
    simp [submitProviderApplication, hp, hd]
  · intro d hp hd he
    simp [submitProviderApplication, hp, hd, he, mkProviderRow, mkExperienceRow]

/-- C7 witness: the experience insert failing after a successful provider
insert leaves the provider row in place with one toast and a combined failure
result. -/
theorem submitProviderApplication_spec_witness :
    (submitProviderApplication ⟨true, false, 4⟩ "2024-01-01"
        ⟨"c", "e", "n", "l", some ⟨"x", "d", "i", "9.5", "l", "2h", "4", "dt", "cat"⟩⟩).success
        = false ∧
      (submitProviderApplication ⟨true, false, 4⟩ "2024-01-01"
        ⟨"c", "e", "n", "l", some ⟨"x", "d", "i", "9.5", "l", "2h", "4", "dt", "cat"⟩⟩).toasts
        = 1 ∧
      (submitProviderApplication ⟨true, false, 4⟩ "2024-01-01"
        ⟨"c", "e", "n", "l", some ⟨"x", "d", "i", "9.5", "l", "2h", "4", "dt", "cat"⟩⟩).providerRows
        = [mkProviderRow ⟨"c", "e", "n", "l",
            some ⟨"x", "d", "i", "9.5", "l", "2h", "4", "dt", "cat"⟩⟩ 4 "2024-01-01"] ∧
      (submitProviderApplication ⟨true, false, 4⟩ "2024-01-01"
        ⟨"c", "e", "n", "l", some ⟨"x", "d", "i", "9.5", "l", "2h", "4", "dt", "cat"⟩⟩).experienceRows
        = [] :=
  (submitProviderApplication_spec ⟨true, false, 4⟩ "2024-01-01"
      ⟨"c", "e", "n", "l", some ⟨"x", "d", "i", "9.5", "l", "2h", "4", "dt", "cat"⟩⟩).2.1
    ⟨"x", "d", "i", "9.5", "l", "2h", "4", "dt", "cat"⟩ rfl rfl rfl

end Slash
